import Mathlib

/-!
Shallow embedding of the CliMAF macro subsystem (src/climaf/cmacros.py).

The expression-tree node classes (cdataset, ctree, scriptChild, cpage) come
from the external module `classes`, which is not part of the sources; their
fields are modelled from the specification (section 3, Data Model).  Two
extra constructors record Python values that the code of cmacros.py can
place inside a tree:

* `cdatasetClass` stands for the Python class object `cdataset` itself,
  which `instantiate` assigns to `rep` in its `cdataset` branch
  ("rep=cdataset" at line 251 of cmacros.py);
* `pyNone` stands for the Python value `None`, which the macro builder can
  place into the operand list of a rebuilt tree when a sub-build fails;
* `pyUnicode` stands for a Python 2 unicode object, which is what json.load
  hands to cmacro for every stored macro text: unicode is not str in
  Python 2, so the isinstance(cobj,str) test at line 88 is False and the
  eval branch never runs — the value falls through every isinstance test.

Python exceptions are modelled with `Except`; `PyErr` lists every exception
kind the embedded code can produce.
-/

namespace Cmacros

/-- Expression-tree nodes, modelled from section 3 of the specification and
from the constructor calls visible in cmacros.py.  `cdummy` is the
Placeholder sentinel defined in cmacros.py itself. -/
inductive Node where
  | cdataset (facets : List (String × String))
  | cdummy
  | ctree (operator script : String) (operands : List Node)
      (parameters : List (String × String))
  | scriptChild (father : Node) (varname : String)
  | cpage (widths heights : List String) (figLines : List (List Node))
      (orientation : String)
  | cdatasetClass
  | pyNone
  | pyUnicode (text : String)

/-- The two messages carried by Climaf_Macro_Error in instantiate. -/
inductive MacroErrKind where
  | noOperandLeft
  | tooManyOperands (left : List Node)

/-- Python exception kinds raised by the embedded code. -/
inductive PyErr where
  | climafMacroError (kind : MacroErrKind)
  | nameError
  | unboundLocal
  | recursionError

/-- Dict lookup on an association list; parameter dicts are modelled as
association lists whose order is the dict iteration order. -/
def dget (l : List (String × String)) (k : String) : Option String :=
  match l with
  | [] => none
  | (k', v) :: r => if k' = k then some v else dget r k

/-- The parameter-comparison loop of cmatch (lines 162-166): iterate
zip(macro.parameters, cobj.parameters) over the two key sequences and set
nok when a paired key differs or the values under the candidate key differ.
zip truncates to the shorter key sequence, exactly as in the source. -/
def paramsNok (mpar cpar : List (String × String)) : Bool :=
  ((mpar.map Prod.fst).zip (cpar.map Prod.fst)).any fun p =>
    decide (p.1 ≠ p.2) || decide (dget mpar p.2 ≠ dget cpar p.2)

mutual

/-- cmatch (cmacros.py lines 154-178).  The scriptChild/scriptChild branch
with equal varnames evaluates the undefined name `argslist` (line 177),
which raises NameError; this is modelled by `PyErr.nameError`. -/
def cmatch : Node → Node → Except PyErr (List Node)
  | Node.ctree mo _ mops mpar, Node.ctree co _ cops cpar =>
    if mo = co then
      if paramsNok mpar cpar then Except.ok []
      else cmatchOps mops cops
    else Except.ok []
  | Node.scriptChild _ mv, Node.scriptChild _ cv =>
    if mv = cv then Except.error PyErr.nameError
    else Except.ok []
  | _, _ => Except.ok []

/-- The operand loop of cmatch (lines 168-174): zip the operand lists
(truncating), append the candidate operand for a Placeholder, otherwise
concatenate the recursive result.  A recursive exception propagates. -/
def cmatchOps : List Node → List Node → Except PyErr (List Node)
  | [], _ => Except.ok []
  | _ :: _, [] => Except.ok []
  | mop :: mr, cop :: cr =>
    match mop with
    | Node.cdummy =>
      match cmatchOps mr cr with
      | Except.error e => Except.error e
      | Except.ok rest => Except.ok (cop :: rest)
    | _ =>
      match cmatch mop cop with
      | Except.error e => Except.error e
      | Except.ok sub =>
        match cmatchOps mr cr with
        | Except.error e => Except.error e
        | Except.ok rest => Except.ok (sub ++ rest)

end

mutual

/-- instantiate with toplevel=False (cmacros.py lines 231-254), in
state-passing form: the mutable operand list is threaded through and
returned.  The branches mirror the isinstance chain of the source:
cdummy pops an operand or raises Climaf_Macro_Error('no operand left');
ctree rebuilds after instantiating each operand; scriptChild rebuilds the
father (the source reads mac.variable, modelled as the node's single
variable/child name, i.e. varname, following the specification of
ExtractionNode); the cdataset branch executes "rep=cdataset", assigning
the class object, modelled by `Node.cdatasetClass`.  For every other node
kind no branch assigns rep, and the non-toplevel call reaches return(rep)
with rep unbound, raising UnboundLocalError. -/
def instantiateRec : Node → List Node → Except PyErr (Node × List Node)
  | Node.cdummy, ops =>
    match ops with
    | o :: rest => Except.ok (o, rest)
    | [] => Except.error (PyErr.climafMacroError MacroErrKind.noOperandLeft)
  | Node.ctree op s mops par, ops =>
    match instOperands mops ops with
    | Except.error e => Except.error e
    | Except.ok (news, rest) => Except.ok (Node.ctree op s news par, rest)
  | Node.scriptChild fa v, ops =>
    match instantiateRec fa ops with
    | Except.error e => Except.error e
    | Except.ok (father, rest) => Except.ok (Node.scriptChild father v, rest)
  | Node.cdataset _, ops => Except.ok (Node.cdatasetClass, ops)
  | Node.cpage _ _ _ _, _ => Except.error PyErr.unboundLocal
  | Node.cdatasetClass, _ => Except.error PyErr.unboundLocal
  | Node.pyNone, _ => Except.error PyErr.unboundLocal
  | Node.pyUnicode _, _ => Except.error PyErr.unboundLocal

/-- The operand loop of the ctree branch of instantiate (line 245). -/
def instOperands : List Node → List Node → Except PyErr (List Node × List Node)
  | [], ops => Except.ok ([], ops)
  | m :: mr, ops =>
    match instantiateRec m ops with
    | Except.error e => Except.error e
    | Except.ok (r, rest) =>
      match instOperands mr rest with
      | Except.error e => Except.error e
      | Except.ok (rs, rest2) => Except.ok (r :: rs, rest2)

end

/-- instantiate at toplevel (toplevel=True).  In the source the excess
check "if toplevel and len(operands) != 0" runs after the isinstance
chain and before return(rep); so for a node kind with no branch, a
non-empty remaining operand list raises the too-many-operands error
first, and only an empty one reaches return(rep) and the
UnboundLocalError. -/
def instantiate (mac : Node) (operands : List Node) : Except PyErr Node :=
  match mac with
  | Node.cpage _ _ _ _ =>
    if operands.isEmpty then Except.error PyErr.unboundLocal
    else Except.error (PyErr.climafMacroError (MacroErrKind.tooManyOperands operands))
  | Node.cdatasetClass =>
    if operands.isEmpty then Except.error PyErr.unboundLocal
    else Except.error (PyErr.climafMacroError (MacroErrKind.tooManyOperands operands))
  | Node.pyNone =>
    if operands.isEmpty then Except.error PyErr.unboundLocal
    else Except.error (PyErr.climafMacroError (MacroErrKind.tooManyOperands operands))
  | Node.pyUnicode _ =>
    if operands.isEmpty then Except.error PyErr.unboundLocal
    else Except.error (PyErr.climafMacroError (MacroErrKind.tooManyOperands operands))
  | _ =>
    match instantiateRec mac operands with
    | Except.error e => Except.error e
    | Except.ok (rep, rest) =>
      if rest.isEmpty then Except.ok rep
      else Except.error (PyErr.climafMacroError (MacroErrKind.tooManyOperands rest))

mutual

/-- Size of a node, used to budget the fuel of the rewriter model.  Lists
contribute one unit per element. -/
def nsize : Node → Nat
  | Node.ctree _ _ ops _ => 1 + nsizeL ops
  | Node.scriptChild fa _ => 1 + nsize fa
  | Node.cpage _ _ ls _ => 1 + nsizeLL ls
  | _ => 1

def nsizeL : List Node → Nat
  | [] => 0
  | o :: r => 1 + nsize o + nsizeL r

def nsizeLL : List (List Node) → Nat
  | [] => 0
  | l :: r => 1 + nsizeL l + nsizeLL r

end

mutual

/-- Modelled from the spec: the textual (CRS) rendering of a node.  The
node classes and their buildcrs methods live in the external module
`classes`, absent from the sources; only cdummy.buildcrs, which returns
'ARG', is given in cmacros.py.  The concrete format below is one fixed
deterministic rendering per node kind, as section 2 of the specification
requires ("each able to serialize itself to a textual expression"). -/
def buildcrs : Node → String
  | Node.cdataset facets =>
    "ds(" ++ String.intercalate "," (facets.map fun p => p.1 ++ "=" ++ p.2) ++ ")"
  | Node.cdummy => "ARG"
  | Node.ctree op _ ops par =>
    op ++ "(" ++
      String.intercalate "," (buildcrsList ops ++ par.map fun p => p.1 ++ "=" ++ p.2)
      ++ ")"
  | Node.scriptChild fa v => "cchild(" ++ buildcrs fa ++ "," ++ v ++ ")"
  | Node.cpage _ _ ls _ =>
    "cpage(" ++ String.intercalate "," (buildcrsLines ls) ++ ")"
  | Node.cdatasetClass => "cdataset"
  | Node.pyNone => "None"
  | Node.pyUnicode t => t

def buildcrsList : List Node → List String
  | [] => []
  | o :: r => buildcrs o :: buildcrsList r

def buildcrsLines : List (List Node) → List String
  | [] => []
  | l :: r => String.intercalate "," (buildcrsList l) :: buildcrsLines r

end

mutual

/-- Modelled from the spec: structural equality of nodes (the Python ==
used at line 94 of cmacros.py; the node classes are external, and section
3 of the specification states that a node's identity is its structural
shape). -/
def nodeEq : Node → Node → Bool
  | Node.cdataset a, Node.cdataset b => decide (a = b)
  | Node.cdummy, Node.cdummy => true
  | Node.ctree o1 s1 ops1 p1, Node.ctree o2 s2 ops2 p2 =>
    decide (o1 = o2) && decide (s1 = s2) && nodeEqL ops1 ops2 && decide (p1 = p2)
  | Node.scriptChild f1 v1, Node.scriptChild f2 v2 =>
    nodeEq f1 f2 && decide (v1 = v2)
  | Node.cpage w1 h1 l1 or1, Node.cpage w2 h2 l2 or2 =>
    decide (w1 = w2) && decide (h1 = h2) && nodeEqLL l1 l2 && decide (or1 = or2)
  | Node.cdatasetClass, Node.cdatasetClass => true
  | Node.pyNone, Node.pyNone => true
  | Node.pyUnicode a, Node.pyUnicode b => decide (a = b)
  | _, _ => false

def nodeEqL : List Node → List Node → Bool
  | [], [] => true
  | a :: ar, b :: br => nodeEq a b && nodeEqL ar br
  | _, _ => false

def nodeEqLL : List (List Node) → List (List Node) → Bool
  | [], [] => true
  | a :: ar, b :: br => nodeEqL a b && nodeEqLL ar br
  | _, _ => false

end

/-- isinstance(cobj, cobject): every tree-node class is a cobject subclass;
the class object itself, None and a unicode object are not cobject
instances. -/
def isCobject : Node → Bool
  | Node.cdatasetClass => false
  | Node.pyNone => false
  | Node.pyUnicode _ => false
  | _ => true

/-- The domatch loop of cmacro (lines 92-95). -/
def domatchFn (cobj : Node) (lobjects : List Node) : Bool :=
  lobjects.any fun o =>
    nodeEq cobj o || (isCobject cobj && decide (buildcrs cobj = buildcrs o))

/-- isinstance(cobj,cdataset) or isinstance(cobj,cdummy) (line 96). -/
def isDatasetOrDummy : Node → Bool
  | Node.cdataset _ => true
  | Node.cdummy => true
  | _ => false

mutual

/-- The recursive transformation performed by cmacro when called with
name=None (as all its internal recursive calls are, lines 101, 103, 106):
datasets, dummies and domatch hits become a fresh cdummy; ctree,
scriptChild and cpage are rebuilt with transformed children; None stays
None; any other value logs an error and yields rep=None (`Node.pyNone`).
Recursive calls pass an empty lobjects list, as in the source. -/
def cmacroRec : Node → List Node → Node
  | cobj, lobjects =>
    if isDatasetOrDummy cobj || domatchFn cobj lobjects then Node.cdummy
    else match cobj with
      | Node.ctree op s ops par => Node.ctree op s (cmacroList ops) par
      | Node.scriptChild fa v => Node.scriptChild (cmacroRec fa []) v
      | Node.cpage w h ls o => Node.cpage w h (cmacroLines ls) o
      | _ => Node.pyNone

def cmacroList : List Node → List Node
  | [] => []
  | o :: r => cmacroRec o [] :: cmacroList r

def cmacroLines : List (List Node) → List (List Node)
  | [] => []
  | l :: r => cmacroList l :: cmacroLines r

end

/-- The macro registry (module dict cmacros), as an association list in
dict iteration order. -/
abbrev Registry := List (String × Node)

/-- Dict assignment cmacros[name]=rep: overwrite in place or append. -/
def dinsert (k : String) (v : Node) : Registry → Registry
  | [] => [(k, v)]
  | (k', v') :: rest => if k' = k then (k, v) :: rest else (k', v') :: dinsert k v rest

/-- Python truthiness of the name argument: None and the empty string are
falsy. -/
def truthyName : Option String → Bool
  | none => false
  | some s => decide (s ≠ "")

/-- cmacro called on an already-built tree (lines 92-120), with its
registration side effect on the registry.  The branches for cdataset,
cdummy and domatch return a fresh cdummy early (line 97), skipping the
registration block; None returns early as well (line 108); the else
branch (lines 109-111) logs an error and sets rep=None.  Only the ctree,
scriptChild and cpage branches fall through to the registration block
"if name and rep", and there rep is always truthy. -/
def cmacroReg (name : Option String) (cobj : Node) (lobjects : List Node)
    (reg : Registry) : Node × Registry :=
  if isDatasetOrDummy cobj || domatchFn cobj lobjects then (Node.cdummy, reg)
  else match cobj with
    | Node.ctree op s ops par =>
      let rep := Node.ctree op s (cmacroList ops) par
      (rep, if truthyName name then dinsert (name.getD "") rep reg else reg)
    | Node.scriptChild fa v =>
      let rep := Node.scriptChild (cmacroRec fa []) v
      (rep, if truthyName name then dinsert (name.getD "") rep reg else reg)
    | Node.cpage w h ls o =>
      let rep := Node.cpage w h (cmacroLines ls) o
      (rep, if truthyName name then dinsert (name.getD "") rep reg else reg)
    | _ => (Node.pyNone, reg)

/-- The node kinds at which crewrite attempts macro matching and
structural descent (line 136): ctree, scriptChild or cpage. -/
def isTreeNode : Node → Bool
  | Node.ctree _ _ _ _ => true
  | Node.scriptChild _ _ => true
  | Node.cpage _ _ _ _ => true
  | _ => false

/-- The macro loop of crewrite (lines 138-147): iterate the registry in
order, calling cmatch, and stop at the first macro with a non-empty
capture list; an exception from cmatch propagates. -/
def tryMacrosFn : Registry → Node → Except PyErr (Option (String × List Node))
  | [], _ => Except.ok none
  | (m, t) :: rest, co =>
    match cmatch t co with
    | Except.error e => Except.error e
    | Except.ok argl =>
      if argl.isEmpty then tryMacrosFn rest co
      else Except.ok (some (m, argl))

mutual

/-- crewrite (cmacros.py lines 123-152), modelled on the parsed tree: the
input CRS string is identified with the tree the external interpreter
evaluates it to, and the non-tree branch (line 152), which returns the
input string unchanged, returns the tree's canonical rendering.  The fuel
argument models the host's recursion-depth guard (specification section
5); every recursive call consumes fuel, and exhaustion raises
`PyErr.recursionError`. -/
def crewriteN (reg : Registry) : Nat → Node → Bool → Except PyErr String
  | 0, _, _ => Except.error PyErr.recursionError
  | f + 1, co, alsoAtTop =>
    if isTreeNode co then
      match (if alsoAtTop then tryMacrosFn reg co else Except.ok none) with
      | Except.error e => Except.error e
      | Except.ok (some p) =>
        match crewriteChildren reg f p.2 with
        | Except.error e => Except.error e
        | Except.ok args =>
          Except.ok (p.1 ++ "(" ++ String.intercalate "," args ++ ")")
      | Except.ok none => buildcrsWithF reg f co
    else Except.ok (buildcrs co)

/-- Modelled from the spec: the fallback co.buildcrs(crsrewrite=crewrite)
(line 150) — the node renders its own textual form while each immediate
child is rewritten with alsoAtTop re-enabled (specification sections 4.4
and 9). -/
def buildcrsWithF (reg : Registry) : Nat → Node → Except PyErr String
  | 0, _ => Except.error PyErr.recursionError
  | f + 1, Node.ctree op _ ops par =>
    match crewriteChildren reg f ops with
    | Except.error e => Except.error e
    | Except.ok cs =>
      Except.ok (op ++ "(" ++
        String.intercalate "," (cs ++ par.map fun p => p.1 ++ "=" ++ p.2) ++ ")")
  | f + 1, Node.scriptChild fa v =>
    match crewriteN reg f fa true with
    | Except.error e => Except.error e
    | Except.ok fs => Except.ok ("cchild(" ++ fs ++ "," ++ v ++ ")")
  | f + 1, Node.cpage _ _ ls _ =>
    match crewriteLines reg f ls with
    | Except.error e => Except.error e
    | Except.ok lss => Except.ok ("cpage(" ++ String.intercalate "," lss ++ ")")
  | _ + 1, other => Except.ok (buildcrs other)

/-- Rewrite each node of a list (used both for the children of a ctree in
the structural fallback and for the captured arguments of a matched macro,
lines 144-145). -/
def crewriteChildren (reg : Registry) : Nat → List Node →
    Except PyErr (List String)
  | _, [] => Except.ok []
  | 0, _ :: _ => Except.error PyErr.recursionError
  | f + 1, o :: rest =>
    match crewriteN reg f o true with
    | Except.error e => Except.error e
    | Except.ok s =>
      match crewriteChildren reg f rest with
      | Except.error e => Except.error e
      | Except.ok ss => Except.ok (s :: ss)

/-- Rewrite each row of a cpage layout. -/
def crewriteLines (reg : Registry) : Nat → List (List Node) →
    Except PyErr (List String)
  | _, [] => Except.ok []
  | 0, _ :: _ => Except.error PyErr.recursionError
  | f + 1, l :: rest =>
    match crewriteChildren reg f l with
    | Except.error e => Except.error e
    | Except.ok cs =>
      match crewriteLines reg f rest with
      | Except.error e => Except.error e
      | Except.ok rs => Except.ok (String.intercalate "," cs :: rs)

end

mutual

/-- Match compatibility between a template and a candidate: the template
position is either a Placeholder, or both are operator nodes with equal
operator, script and parameter dict and pairwise-compatible operand lists
of equal length.  Under this relation every recursive cmatch visit
succeeds and the two trees align position by position. -/
def compat : Node → Node → Bool
  | Node.cdummy, _ => true
  | Node.ctree mo ms mops mpar, Node.ctree co cs cops cpar =>
    decide (mo = co) && decide (ms = cs) && decide (mpar = cpar) &&
      compatL mops cops
  | _, _ => false

def compatL : List Node → List Node → Bool
  | [], [] => true
  | m :: mr, c :: cr => compat m c && compatL mr cr
  | _, _ => false

end

mutual

/-- The node kinds handled by the isinstance chain of instantiate:
cdummy, ctree, scriptChild and cdataset, recursively. -/
def supported : Node → Bool
  | Node.cdummy => true
  | Node.cdataset _ => true
  | Node.ctree _ _ ops _ => supportedL ops
  | Node.scriptChild fa _ => supported fa
  | _ => false

def supportedL : List Node → Bool
  | [] => true
  | o :: r => supported o && supportedL r

end

mutual

/-- Number of Placeholder (cdummy) leaves of a template, in depth-first
left-to-right order (the instantiation arity of section 3). -/
def dummyCount : Node → Nat
  | Node.cdummy => 1
  | Node.ctree _ _ ops _ => dummyCountL ops
  | Node.scriptChild fa _ => dummyCount fa
  | Node.cpage _ _ ls _ => dummyCountLL ls
  | _ => 0

def dummyCountL : List Node → Nat
  | [] => 0
  | o :: r => dummyCount o + dummyCountL r

def dummyCountLL : List (List Node) → Nat
  | [] => 0
  | l :: r => dummyCountL l + dummyCountLL r

end

/-- The node kinds with no branch in cmacro's isinstance chain (and which
are not None): the build of such a node lands in the else branch at lines
109-111, logs an error and produces rep=None. -/
def unhandledByBuilder : Node → Bool
  | Node.cdatasetClass => true
  | Node.pyUnicode _ => true
  | _ => false

/-- The immediate children the macro builder recurses into: the operands
of a ctree, the father of a scriptChild, and the figures of a cpage in
row-major order.  Leaves and non-tree values have none. -/
def childrenOf : Node → List Node
  | Node.ctree _ _ ops _ => ops
  | Node.scriptChild fa _ => [fa]
  | Node.cpage _ _ ls _ => ls.flatten
  | _ => []

/-- The subtree of a node at a path of child indices. -/
def nodeAt : Node → List Nat → Option Node
  | e, [] => some e
  | e, i :: p =>
    match (childrenOf e)[i]? with
    | some c => nodeAt c p
    | none => none

theorem zip_self_mem (l : List String) : ∀ p ∈ l.zip l, p.1 = p.2 := by
  induction l with
  | nil => intro p hp; simp at hp
  | cons a r ih =>
    intro p hp
    rcases List.mem_cons.mp (by simpa [List.zip_cons_cons] using hp) with h | h
    · subst h; rfl
    · exact ih p h

theorem zip_self_any_false (mp : List (String × String)) (l : List String) :
    (l.zip l).any
      (fun p => decide (p.1 ≠ p.2) || decide (dget mp p.2 ≠ dget mp p.2)) = false := by
  rw [List.any_eq_false]
  intro p hp
  have h1 : p.1 = p.2 := zip_self_mem l p hp
  simp [h1]

/-- Identical parameter dicts never set nok in the comparison loop. -/
theorem paramsNok_self (p : List (String × String)) : paramsNok p p = false := by
  unfold paramsNok
  exact zip_self_any_false p (p.map Prod.fst)

theorem nsize_pos (m : Node) : 1 ≤ nsize m := by
  cases m <;> simp [nsize]

/-- Claim C2: the matcher never raises; in particular on two ExtractionNodes
with equal variable names it should recurse into the parents and return
that result without error.  The code instead evaluates the undefined name
argslist (cmacros.py line 177) and raises NameError, modelled here: at a
concrete pair of scriptChild nodes with equal varnames, cmatch raises. -/
theorem claim2_code_bug :
    cmatch (Node.scriptChild (Node.cdataset [("variable", "tas")]) "out")
        (Node.scriptChild (Node.cdataset [("variable", "pr")]) "out") =
      Except.error PyErr.nameError := rfl

/-- Claim C4: a DatasetRef leaf inside a template should pass through
instantiate unchanged.  The code executes "rep=cdataset" (line 251),
binding the class object instead of the leaf, so the instantiated tree
holds the class object at that position, which is not the original leaf. -/
theorem claim4_code_bug :
    instantiate (Node.ctree "sub" "script" [Node.cdataset [("variable", "tas")]] []) [] =
      Except.ok (Node.ctree "sub" "script" [Node.cdatasetClass] []) ∧
    (∀ facets, Node.cdatasetClass ≠ Node.cdataset facets) :=
  ⟨rfl, fun _ h => Node.noConfusion h⟩

/-- Claim C6: capture order is strictly depth-first left-to-right: matching
op(ARG, op2(ARG, ARG)) against op(d1, op2(d2, d3)) yields [d1, d2, d3]. -/
theorem claim6_capture_order (s1 s2 s3 s4 : String) (d1 d2 d3 : Node) :
    cmatch
        (Node.ctree "op" s1
          [Node.cdummy, Node.ctree "op2" s2 [Node.cdummy, Node.cdummy] []] [])
        (Node.ctree "op" s3 [d1, Node.ctree "op2" s4 [d2, d3] []] []) =
      Except.ok [d1, d2, d3] := rfl

/-- Claim C10: instantiate has no branch for a CompositeNode (or for any
kind beyond Placeholder, OperatorNode, ExtractionNode, DatasetRef), so rep
is never assigned and return(rep) raises the language-level
UnboundLocalError, which is none of the documented macro arity errors. -/
theorem claim10_instantiate_unhandled_kinds (w h : List String)
    (ls : List (List Node)) (o : String) (ops : List Node) :
    instantiateRec (Node.cpage w h ls o) ops = Except.error PyErr.unboundLocal ∧
    instantiate (Node.cpage w h ls o) [] = Except.error PyErr.unboundLocal ∧
    instantiateRec Node.cdatasetClass ops = Except.error PyErr.unboundLocal ∧
    instantiateRec Node.pyNone ops = Except.error PyErr.unboundLocal ∧
    (∀ kind, PyErr.unboundLocal ≠ PyErr.climafMacroError kind) :=
  ⟨rfl, rfl, rfl, rfl, fun _ hk => PyErr.noConfusion hk⟩

/-- Claim C1 fails as stated: with template op(ARG) and candidate
op(d1, d2), the operand zip drops the candidate's extra operand, cmatch
returns the non-empty capture list [d1], yet instantiate rebuilds a
one-operand tree that is not structurally equal to the candidate. -/
theorem claim1_counterexample :
    cmatch (Node.ctree "op" "s" [Node.cdummy] [])
        (Node.ctree "op" "s"
          [Node.cdataset [("variable", "tas")], Node.cdataset [("variable", "pr")]] []) =
      Except.ok [Node.cdataset [("variable", "tas")]] ∧
    ([Node.cdataset [("variable", "tas")]] : List Node) ≠ [] ∧
    instantiate (Node.ctree "op" "s" [Node.cdummy] [])
        [Node.cdataset [("variable", "tas")]] =
      Except.ok (Node.ctree "op" "s" [Node.cdataset [("variable", "tas")]] []) ∧
    Node.ctree "op" "s" [Node.cdataset [("variable", "tas")]] [] ≠
      Node.ctree "op" "s"
        [Node.cdataset [("variable", "tas")], Node.cdataset [("variable", "pr")]] [] :=
  ⟨rfl, by simp, rfl, by simp⟩

/-- Claim C3 fails as stated: a parameter present in the candidate's dict
but absent from the template's dict is invisible to the zip-based
comparison loop, so the match succeeds although the mappings differ. -/
theorem claim3_counterexample :
    cmatch (Node.ctree "op" "s" [Node.cdummy] [])
        (Node.ctree "op" "s" [Node.cdataset [("variable", "tas")]] [("p", "1")]) =
      Except.ok [Node.cdataset [("variable", "tas")]] ∧
    ([] : List (String × String)) ≠ [("p", "1")] :=
  ⟨rfl, by simp⟩

/-- Claim C5 fails as stated: a template whose Placeholder sits inside a
CompositeNode makes instantiate raise UnboundLocalError instead of the
insufficient-operands error, and an unhandled node kind reached before the
operand surplus is detected raises UnboundLocalError instead of the
excess-operands error. -/
theorem claim5_counterexample :
    dummyCount (Node.cpage [] [] [[Node.cdummy]] "landscape") = 1 ∧
    instantiate (Node.cpage [] [] [[Node.cdummy]] "landscape") [] =
      Except.error PyErr.unboundLocal ∧
    dummyCount (Node.ctree "op" "s" [Node.cpage [] [] [] "landscape", Node.cdummy] []) = 1 ∧
    instantiate (Node.ctree "op" "s" [Node.cpage [] [] [] "landscape", Node.cdummy] [])
        [Node.cdataset [], Node.cdataset []] = Except.error PyErr.unboundLocal ∧
    (∀ kind, PyErr.unboundLocal ≠ PyErr.climafMacroError kind) :=
  ⟨rfl, rfl, rfl, rfl, fun _ hk => PyErr.noConfusion hk⟩

/-- Claim C8 fails as stated: an unsupported node strictly inside the
source expression does not abort the build; the failed sub-build becomes
None inside the rebuilt template, which is produced and registered. -/
theorem claim8_counterexample :
    cmacroReg (some "m") (Node.ctree "op" "s" [Node.cdatasetClass] []) [] [] =
      (Node.ctree "op" "s" [Node.pyNone] [],
        [("m", Node.ctree "op" "s" [Node.pyNone] [])]) ∧
    Node.ctree "op" "s" [Node.pyNone] [] ≠ Node.pyNone :=
  ⟨rfl, fun h => Node.noConfusion h⟩

/-- Claim C3, amended: between two operator nodes with equal operator
names, the parameter dicts are compared by zipping their key sequences
positionally up to the shorter one: a mismatch among those zipped pairs
(differing paired keys, or differing values under the candidate key)
yields no match; parameters beyond the shorter mapping are ignored, so a
key present in only one mapping does not by itself prevent a match. -/
theorem claim3_amended (mo ms cs : String) (mops cops : List Node)
    (mpar cpar : List (String × String))
    (h : ∃ p ∈ (mpar.map Prod.fst).zip (cpar.map Prod.fst),
        p.1 ≠ p.2 ∨ dget mpar p.2 ≠ dget cpar p.2) :
    cmatch (Node.ctree mo ms mops mpar) (Node.ctree mo cs cops cpar) =
      Except.ok [] := by
  have hnok : paramsNok mpar cpar = true := by
    rw [paramsNok, List.any_eq_true]
    obtain ⟨p, hp, hor⟩ := h
    exact ⟨p, hp, by simpa using hor⟩
  simp [cmatch, hnok]

theorem claim3_witness :
    cmatch (Node.ctree "op" "s" [Node.cdummy] [("p", "1")])
        (Node.ctree "op" "s" [Node.cdataset [("variable", "tas")]] [("p", "2")]) =
      Except.ok [] :=
  claim3_amended "op" "s" "s" [Node.cdummy]
    [Node.cdataset [("variable", "tas")]] [("p", "1")] [("p", "2")] (by decide)

theorem cmacroList_eq_map (ops : List Node) :
    cmacroList ops = ops.map fun o => cmacroRec o [] := by
  induction ops with
  | nil => rfl
  | cons o r ih => simp [cmacroList, ih]

theorem cmacroLines_eq_map (ls : List (List Node)) :
    cmacroLines ls = ls.map cmacroList := by
  induction ls with
  | nil => rfl
  | cons l r ih => simp [cmacroLines, ih]

/-- A node with no branch in cmacro's isinstance chain builds to None. -/
theorem cmacroRec_unhandled (u : Node) (hu : unhandledByBuilder u = true) :
    cmacroRec u [] = Node.pyNone := by
  cases u <;> first | rfl | simp [unhandledByBuilder] at hu

/-- The builder rebuilds a ctree, scriptChild or cpage with the same shape
and each immediate child transformed independently by a recursive cmacro
call with name=None and no lobjects. -/
theorem childrenOf_cmacroRec (E : Node) (hE : isTreeNode E = true) :
    childrenOf (cmacroRec E []) = (childrenOf E).map fun o => cmacroRec o [] := by
  cases E with
  | ctree op s ops par =>
    simp [cmacroRec, isDatasetOrDummy, domatchFn, childrenOf, cmacroList_eq_map]
  | scriptChild fa v =>
    simp [cmacroRec, isDatasetOrDummy, domatchFn, childrenOf]
  | cpage w h ls o =>
    simp [cmacroRec, isDatasetOrDummy, domatchFn, childrenOf, cmacroLines_eq_map]
    congr 1
    exact List.map_congr_left fun l _ => cmacroList_eq_map l
  | cdataset facets => simp [isTreeNode] at hE
  | cdummy => simp [isTreeNode] at hE
  | cdatasetClass => simp [isTreeNode] at hE
  | pyNone => simp [isTreeNode] at hE
  | pyUnicode t => simp [isTreeNode] at hE

/-- An unhandled node at any position strictly inside the source
expression is replaced by None at the same position of the built
template. -/
theorem cmacroRec_nested_none : ∀ (p : List Nat) (E u : Node), p ≠ [] →
    nodeAt E p = some u → unhandledByBuilder u = true →
    nodeAt (cmacroRec E []) p = some Node.pyNone := by
  intro p
  induction p with
  | nil => intro E u hne _ _; exact absurd rfl hne
  | cons i q ih =>
    intro E u _ hat hu
    cases hc : (childrenOf E)[i]? with
    | none => simp [nodeAt, hc] at hat
    | some c =>
      have htree : isTreeNode E = true := by
        cases E <;> first | rfl | simp [childrenOf] at hc
      have hch : (childrenOf (cmacroRec E []))[i]? = some (cmacroRec c []) := by
        rw [childrenOf_cmacroRec E htree, List.getElem?_map, hc]
        rfl
      cases q with
      | nil =>
        simp [nodeAt, hc] at hat
        subst hat
        simp [nodeAt, hch, cmacroRec_unhandled c hu]
      | cons j r =>
        simp only [nodeAt, hc] at hat
        have hrec := ih c u (by simp) hat hu
        simp only [nodeAt, hch]
        exact hrec

/-- The builder aborts at an unhandled root: no template, no
registration. -/
theorem cmacroReg_unhandled_root (u : Node) (hu : unhandledByBuilder u = true)
    (name : Option String) (lobjects : List Node) (reg : Registry)
    (hdom : domatchFn u lobjects = false) :
    cmacroReg name u lobjects reg = (Node.pyNone, reg) := by
  cases u with
  | cdatasetClass => simp [cmacroReg, isDatasetOrDummy, hdom]
  | pyUnicode t => simp [cmacroReg, isDatasetOrDummy, hdom]
  | cdataset facets => simp [unhandledByBuilder] at hu
  | cdummy => simp [unhandledByBuilder] at hu
  | ctree op s ops par => simp [unhandledByBuilder] at hu
  | scriptChild fa v => simp [unhandledByBuilder] at hu
  | cpage w h ls o => simp [unhandledByBuilder] at hu
  | pyNone => simp [unhandledByBuilder] at hu

/-- A ctree, scriptChild or cpage root always produces a template (a
truthy value, never None) and registers it under a truthy name. -/
theorem cmacroReg_tree_root (E : Node) (hE : isTreeNode E = true)
    (name : String) (hname : name ≠ "") (reg : Registry) :
    cmacroReg (some name) E [] reg =
      (cmacroRec E [], dinsert name (cmacroRec E []) reg) ∧
    cmacroRec E [] ≠ Node.pyNone := by
  cases E with
  | ctree op s ops par =>
    constructor
    · simp [cmacroReg, cmacroRec, isDatasetOrDummy, domatchFn, truthyName, hname]
    · simp [cmacroRec, isDatasetOrDummy, domatchFn]
  | scriptChild fa v =>
    constructor
    · simp [cmacroReg, cmacroRec, isDatasetOrDummy, domatchFn, truthyName, hname]
    · simp [cmacroRec, isDatasetOrDummy, domatchFn]
  | cpage w h ls o =>
    constructor
    · simp [cmacroReg, cmacroRec, isDatasetOrDummy, domatchFn, truthyName, hname]
    · simp [cmacroRec, isDatasetOrDummy, domatchFn]
  | cdataset facets => simp [isTreeNode] at hE
  | cdummy => simp [isTreeNode] at hE
  | cdatasetClass => simp [isTreeNode] at hE
  | pyNone => simp [isTreeNode] at hE
  | pyUnicode t => simp [isTreeNode] at hE

/-- Claim C8, amended: only an unsupported node at the root of the source
expression aborts the build, returning no template and registering
nothing; for every tree-shaped source expression the build produces a
template and registers it under the given (truthy) name, and every
unsupported node strictly inside the expression - at any depth, under
operator, extraction or composite containers - is replaced by None at
the same position of the registered template. -/
theorem claim8_amended :
    (∀ (u : Node) (name : Option String) (lobjects : List Node) (reg : Registry),
      unhandledByBuilder u = true → domatchFn u lobjects = false →
      cmacroReg name u lobjects reg = (Node.pyNone, reg)) ∧
    (∀ (E : Node) (name : String) (reg : Registry), isTreeNode E = true →
      name ≠ "" →
      cmacroReg (some name) E [] reg =
        (cmacroRec E [], dinsert name (cmacroRec E []) reg) ∧
      cmacroRec E [] ≠ Node.pyNone) ∧
    (∀ (p : List Nat) (E u : Node), p ≠ [] → nodeAt E p = some u →
      unhandledByBuilder u = true →
      nodeAt (cmacroRec E []) p = some Node.pyNone) :=
  ⟨fun u name lobjects reg hu hdom =>
      cmacroReg_unhandled_root u hu name lobjects reg hdom,
   fun E name reg hE hname => cmacroReg_tree_root E hE name hname reg,
   cmacroRec_nested_none⟩

theorem claim8_witness :
    cmacroReg (some "m") Node.cdatasetClass [] [] = (Node.pyNone, []) ∧
    cmacroReg (some "m")
        (Node.ctree "op" "s"
          [Node.scriptChild (Node.ctree "op2" "t" [Node.cdatasetClass] []) "v"]
          []) [] [] =
      (cmacroRec
        (Node.ctree "op" "s"
          [Node.scriptChild (Node.ctree "op2" "t" [Node.cdatasetClass] []) "v"]
          []) [],
       dinsert "m"
        (cmacroRec
          (Node.ctree "op" "s"
            [Node.scriptChild (Node.ctree "op2" "t" [Node.cdatasetClass] []) "v"]
            []) []) []) ∧
    nodeAt
        (cmacroRec
          (Node.ctree "op" "s"
            [Node.scriptChild (Node.ctree "op2" "t" [Node.cdatasetClass] []) "v"]
            []) []) [0, 0, 0] = some Node.pyNone := by
  have h := claim8_amended
  exact ⟨h.1 Node.cdatasetClass (some "m") [] [] rfl rfl,
    (h.2.1
      (Node.ctree "op" "s"
        [Node.scriptChild (Node.ctree "op2" "t" [Node.cdatasetClass] []) "v"] [])
      "m" [] rfl (by decide)).1,
    h.2.2 [0, 0, 0]
      (Node.ctree "op" "s"
        [Node.scriptChild (Node.ctree "op2" "t" [Node.cdatasetClass] []) "v"] [])
      Node.cdatasetClass (by simp) rfl rfl⟩

/-- Joint induction: on a template built only from the node kinds that
instantiate handles, the non-toplevel traversal consumes exactly one
operand per Placeholder in depth-first order; with fewer operands than
Placeholders it raises the no-operand-left error. -/
theorem instCountAux : ∀ n : Nat,
    (∀ m, nsize m ≤ n → supported m = true → ∀ ops : List Node,
      (ops.length < dummyCount m →
        instantiateRec m ops =
          Except.error (PyErr.climafMacroError MacroErrKind.noOperandLeft)) ∧
      (dummyCount m ≤ ops.length →
        ∃ r, instantiateRec m ops = Except.ok (r, ops.drop (dummyCount m)))) ∧
    (∀ ms, nsizeL ms ≤ n → supportedL ms = true → ∀ ops : List Node,
      (ops.length < dummyCountL ms →
        instOperands ms ops =
          Except.error (PyErr.climafMacroError MacroErrKind.noOperandLeft)) ∧
      (dummyCountL ms ≤ ops.length →
        ∃ rs, instOperands ms ops = Except.ok (rs, ops.drop (dummyCountL ms)))) := by
  intro n
  induction n using Nat.strong_induction_on with
  | _ n ih =>
    constructor
    · intro m hm hsup ops
      cases m with
      | cdummy =>
        cases ops with
        | nil =>
          exact ⟨fun _ => rfl, fun hle => by simp [dummyCount] at hle⟩
        | cons o rest =>
          refine ⟨fun hlt => ?_, fun _ => ⟨o, rfl⟩⟩
          simp [dummyCount] at hlt
      | cdataset facets =>
        exact ⟨fun hlt => by simp [dummyCount] at hlt,
          fun _ => ⟨Node.cdatasetClass, rfl⟩⟩
      | ctree op s mops par =>
        have hsup' : supportedL mops = true := by simpa [supported] using hsup
        have hsz : nsizeL mops < n := by
          simp [nsize] at hm; omega
        have hQ := (ih (nsizeL mops) hsz).2 mops (Nat.le_refl _) hsup' ops
        constructor
        · intro hlt
          simp [dummyCount] at hlt
          have he := hQ.1 hlt
          simp [instantiateRec, he]
        · intro hle
          simp [dummyCount] at hle
          obtain ⟨rs, hok⟩ := hQ.2 hle
          exact ⟨Node.ctree op s rs par, by simp [instantiateRec, hok, dummyCount]⟩
      | scriptChild fa v =>
        have hsup' : supported fa = true := by simpa [supported] using hsup
        have hsz : nsize fa < n := by
          simp [nsize] at hm; omega
        have hP := (ih (nsize fa) hsz).1 fa (Nat.le_refl _) hsup' ops
        constructor
        · intro hlt
          simp [dummyCount] at hlt
          have he := hP.1 hlt
          simp [instantiateRec, he]
        · intro hle
          simp [dummyCount] at hle
          obtain ⟨r, hok⟩ := hP.2 hle
          exact ⟨Node.scriptChild r v, by simp [instantiateRec, hok, dummyCount]⟩
      | cpage w h ls o => simp [supported] at hsup
      | cdatasetClass => simp [supported] at hsup
      | pyNone => simp [supported] at hsup
      | pyUnicode t => simp [supported] at hsup
    · intro ms hms hsup ops
      cases ms with
      | nil =>
        exact ⟨fun hlt => by simp [dummyCountL] at hlt, fun _ => ⟨[], rfl⟩⟩
      | cons m mr =>
        have hsm : supported m = true ∧ supportedL mr = true := by
          simpa [supportedL, Bool.and_eq_true] using hsup
        have hszm : nsize m < n := by
          simp [nsizeL] at hms; omega
        have hszr : nsizeL mr < n := by
          simp [nsizeL] at hms; omega
        have hPm := (ih (nsize m) hszm).1 m (Nat.le_refl _) hsm.1
        have hQr := (ih (nsizeL mr) hszr).2 mr (Nat.le_refl _) hsm.2
        constructor
        · intro hlt
          simp [dummyCountL] at hlt
          by_cases hc : ops.length < dummyCount m
          · have he := (hPm ops).1 hc
            simp [instOperands, he]
          · push_neg at hc
            obtain ⟨r, hok⟩ := (hPm ops).2 hc
            have hlt2 : (ops.drop (dummyCount m)).length < dummyCountL mr := by
              simp [List.length_drop]; omega
            have he2 := (hQr (ops.drop (dummyCount m))).1 hlt2
            simp [instOperands, hok, he2]
        · intro hle
          simp [dummyCountL] at hle
          have hc : dummyCount m ≤ ops.length := by omega
          obtain ⟨r, hok⟩ := (hPm ops).2 hc
          have hle2 : dummyCountL mr ≤ (ops.drop (dummyCount m)).length := by
            simp [List.length_drop]; omega
          obtain ⟨rs, hok2⟩ := (hQr _).2 hle2
          refine ⟨r :: rs, ?_⟩
          simp [instOperands, hok, hok2, dummyCountL, List.drop_drop]

/-- Joint induction: a non-toplevel instantiate call can only raise the
no-operand-left Climaf_Macro_Error or UnboundLocalError; the
too-many-operands error is raised exclusively by the toplevel check. -/
theorem instRecErrAux : ∀ n : Nat,
    (∀ m ops e, nsize m ≤ n → instantiateRec m ops = Except.error e →
      e = PyErr.climafMacroError MacroErrKind.noOperandLeft ∨
        e = PyErr.unboundLocal) ∧
    (∀ ms ops e, nsizeL ms ≤ n → instOperands ms ops = Except.error e →
      e = PyErr.climafMacroError MacroErrKind.noOperandLeft ∨
        e = PyErr.unboundLocal) := by
  intro n
  induction n using Nat.strong_induction_on with
  | _ n ih =>
    constructor
    · intro m ops e hm herr
      cases m with
      | cdummy =>
        cases ops with
        | nil =>
          simp [instantiateRec] at herr
          exact Or.inl herr.symm
        | cons o rest => simp [instantiateRec] at herr
      | cdataset facets => simp [instantiateRec] at herr
      | ctree op s mops par =>
        have hsz : nsizeL mops < n := by simp [nsize] at hm; omega
        cases hio : instOperands mops ops with
        | error e' =>
          simp [instantiateRec, hio] at herr
          exact herr ▸ (ih (nsizeL mops) hsz).2 mops ops e' (Nat.le_refl _) hio
        | ok p => simp [instantiateRec, hio] at herr
      | scriptChild fa v =>
        have hsz : nsize fa < n := by simp [nsize] at hm; omega
        cases hio : instantiateRec fa ops with
        | error e' =>
          simp [instantiateRec, hio] at herr
          exact herr ▸ (ih (nsize fa) hsz).1 fa ops e' (Nat.le_refl _) hio
        | ok p => simp [instantiateRec, hio] at herr
      | cpage w h ls o =>
        simp [instantiateRec] at herr
        exact Or.inr herr.symm
      | cdatasetClass =>
        simp [instantiateRec] at herr
        exact Or.inr herr.symm
      | pyNone =>
        simp [instantiateRec] at herr
        exact Or.inr herr.symm
      | pyUnicode t =>
        simp [instantiateRec] at herr
        exact Or.inr herr.symm
    · intro ms ops e hms herr
      cases ms with
      | nil => simp [instOperands] at herr
      | cons m mr =>
        have hszm : nsize m < n := by simp [nsizeL] at hms; omega
        have hszr : nsizeL mr < n := by simp [nsizeL] at hms; omega
        cases hio : instantiateRec m ops with
        | error e' =>
          simp [instOperands, hio] at herr
          exact herr ▸ (ih (nsize m) hszm).1 m ops e' (Nat.le_refl _) hio
        | ok p =>
          cases hio2 : instOperands mr p.2 with
          | error e' =>
            simp [instOperands, hio, hio2] at herr
            exact herr ▸ (ih (nsizeL mr) hszr).2 mr p.2 e' (Nat.le_refl _) hio2
          | ok q => simp [instOperands, hio, hio2] at herr

/-- Claim C5, amended: for templates built only from the node kinds that
instantiate handles (Placeholder, OperatorNode, ExtractionNode,
DatasetRef), instantiation with an empty operand list raises the
insufficient-operands error whenever the template holds at least one
Placeholder, and instantiation with more operands than Placeholders
raises the excess-operands error, carrying the unconsumed operands; the
excess check runs only at the toplevel call — a non-toplevel call never
raises the excess error (for no template, of any kind). -/
theorem claim5_amended (T : Node) (hsup : supported T = true) :
    (1 ≤ dummyCount T →
      instantiate T [] =
        Except.error (PyErr.climafMacroError MacroErrKind.noOperandLeft)) ∧
    (∀ R : List Node, dummyCount T < R.length →
      instantiate T R =
        Except.error (PyErr.climafMacroError
          (MacroErrKind.tooManyOperands (R.drop (dummyCount T))))) ∧
    (∀ (m : Node) (ops left : List Node),
      instantiateRec m ops ≠
        Except.error (PyErr.climafMacroError (MacroErrKind.tooManyOperands left))) := by
  have hP := (instCountAux (nsize T)).1 T (Nat.le_refl _) hsup
  refine ⟨?_, ?_, ?_⟩
  · intro hdc
    have he := (hP []).1 (by simpa using hdc)
    cases T with
    | cdummy => simp [instantiate, he]
    | cdataset facets => simp [instantiate, he]
    | ctree op s mops par => simp [instantiate, he]
    | scriptChild fa v => simp [instantiate, he]
    | cpage w h ls o => simp [supported] at hsup
    | cdatasetClass => simp [supported] at hsup
    | pyNone => simp [supported] at hsup
    | pyUnicode t => simp [supported] at hsup
  · intro R hR
    obtain ⟨r, hok⟩ := (hP R).2 (Nat.le_of_lt hR)
    have hne : (R.drop (dummyCount T)).isEmpty = false := by
      have hlen : (R.drop (dummyCount T)).length = R.length - dummyCount T :=
        List.length_drop _ _
      cases hd : R.drop (dummyCount T) with
      | nil => rw [hd] at hlen; simp at hlen; omega
      | cons a l => simp
    cases T with
    | cdummy => simp [instantiate, hok, hne]
    | cdataset facets => simp [instantiate, hok, hne]
    | ctree op s mops par => simp [instantiate, hok, hne]
    | scriptChild fa v => simp [instantiate, hok, hne]
    | cpage w h ls o => simp [supported] at hsup
    | cdatasetClass => simp [supported] at hsup
    | pyNone => simp [supported] at hsup
    | pyUnicode t => simp [supported] at hsup
  · intro m ops left hc
    rcases (instRecErrAux (nsize m)).1 m ops _ (Nat.le_refl _) hc with h | h <;>
      simp at h

theorem claim5_witness :
    instantiate (Node.ctree "op" "s" [Node.cdummy] []) [] =
      Except.error (PyErr.climafMacroError MacroErrKind.noOperandLeft) ∧
    instantiate (Node.ctree "op" "s" [Node.cdummy] [])
        [Node.cdataset [], Node.pyNone] =
      Except.error
        (PyErr.climafMacroError (MacroErrKind.tooManyOperands [Node.pyNone])) := by
  have h := claim5_amended (Node.ctree "op" "s" [Node.cdummy] []) (by decide)
  exact ⟨h.1 (by decide), h.2.1 [Node.cdataset [], Node.pyNone] (by decide)⟩

/-- Joint induction: on a compatible template/candidate pair the matcher
succeeds, and feeding the captured list (followed by anything) back into
the non-toplevel instantiation rebuilds exactly the candidate, leaving
the extra operands untouched. -/
theorem matchInstAux : ∀ n : Nat,
    (∀ m c, nsize m ≤ n → compat m c = true → m ≠ Node.cdummy →
      ∃ A, cmatch m c = Except.ok A ∧
        ∀ ops, instantiateRec m (A ++ ops) = Except.ok (c, ops)) ∧
    (∀ ms cs, nsizeL ms ≤ n → compatL ms cs = true →
      ∃ A, cmatchOps ms cs = Except.ok A ∧
        ∀ ops, instOperands ms (A ++ ops) = Except.ok (cs, ops)) := by
  intro n
  induction n using Nat.strong_induction_on with
  | _ n ih =>
    constructor
    · intro m c hm hcmp hnd
      cases m with
      | cdummy => exact absurd rfl hnd
      | ctree mo msc mops mpar =>
        cases c with
        | ctree co csc cops cpar =>
          simp only [compat, Bool.and_eq_true, decide_eq_true_eq] at hcmp
          obtain ⟨⟨⟨h1, h2⟩, h3⟩, h4⟩ := hcmp
          subst h1; subst h2; subst h3
          have hsz : nsizeL mops < n := by simp [nsize] at hm; omega
          obtain ⟨A, hA, hI⟩ := (ih (nsizeL mops) hsz).2 mops cops (Nat.le_refl _) h4
          refine ⟨A, ?_, ?_⟩
          · simp [cmatch, paramsNok_self, hA]
          · intro ops
            simp [instantiateRec, hI ops]
        | cdataset facets => simp [compat] at hcmp
        | cdummy => simp [compat] at hcmp
        | scriptChild fa v => simp [compat] at hcmp
        | cpage w h ls o => simp [compat] at hcmp
        | cdatasetClass => simp [compat] at hcmp
        | pyNone => simp [compat] at hcmp
        | pyUnicode t => simp [compat] at hcmp
      | cdataset facets => cases c <;> simp [compat] at hcmp
      | scriptChild fa v => cases c <;> simp [compat] at hcmp
      | cpage w h ls o => cases c <;> simp [compat] at hcmp
      | cdatasetClass => cases c <;> simp [compat] at hcmp
      | pyNone => cases c <;> simp [compat] at hcmp
      | pyUnicode t => cases c <;> simp [compat] at hcmp
    · intro ms cs hms hcmp
      cases ms with
      | nil =>
        cases cs with
        | nil => exact ⟨[], rfl, fun ops => rfl⟩
        | cons c cr => simp [compatL] at hcmp
      | cons m mr =>
        cases cs with
        | nil => simp [compatL] at hcmp
        | cons c cr =>
          have hc : compat m c = true ∧ compatL mr cr = true := by
            simpa [compatL, Bool.and_eq_true] using hcmp
          have hszm : nsize m < n := by simp [nsizeL] at hms; omega
          have hszr : nsizeL mr < n := by simp [nsizeL] at hms; omega
          obtain ⟨A2, hA2, hI2⟩ := (ih (nsizeL mr) hszr).2 mr cr (Nat.le_refl _) hc.2
          cases m with
          | cdummy =>
            refine ⟨c :: A2, ?_, ?_⟩
            · simp [cmatchOps, hA2]
            · intro ops
              simp [instOperands, instantiateRec, hI2 ops]
          | ctree mo msc mops mpar =>
            obtain ⟨A1, hA1, hI1⟩ :=
              (ih (nsize (Node.ctree mo msc mops mpar)) hszm).1
                (Node.ctree mo msc mops mpar) c (Nat.le_refl _) hc.1 (by simp)
            refine ⟨A1 ++ A2, ?_, ?_⟩
            · simp [cmatchOps, hA1, hA2]
            · intro ops
              rw [List.append_assoc]
              simp [instOperands, hI1 (A2 ++ ops), hI2 ops]
          | cdataset facets => cases c <;> simp [compat] at hc
          | scriptChild fa v => cases c <;> simp [compat] at hc
          | cpage w h ls o => cases c <;> simp [compat] at hc
          | cdatasetClass => cases c <;> simp [compat] at hc
          | pyNone => cases c <;> simp [compat] at hc
          | pyUnicode t => cases c <;> simp [compat] at hc

/-- Claim C1, amended: for a template and candidate that are
match-compatible — every template position reached by the match is either
a Placeholder or an operator node agreeing with the candidate on
operator, script and parameter dict, with operand lists of equal length —
a non-empty capture list A returned by cmatch makes instantiate(T, A)
rebuild exactly the candidate. -/
theorem claim1_amended (T C : Node) (A : List Node) (h1 : compat T C = true)
    (h2 : cmatch T C = Except.ok A) (h3 : A ≠ []) :
    instantiate T A = Except.ok C := by
  cases T with
  | cdummy =>
    have hz : cmatch Node.cdummy C = Except.ok [] := by cases C <;> rfl
    rw [hz] at h2
    injection h2 with h2
    exact absurd h2.symm h3
  | ctree mo msc mops mpar =>
    obtain ⟨A', hA', hI⟩ :=
      (matchInstAux (nsize (Node.ctree mo msc mops mpar))).1
        (Node.ctree mo msc mops mpar) C (Nat.le_refl _) h1 (by simp)
    rw [hA'] at h2
    injection h2 with h2
    subst h2
    have h4 := hI []
    rw [List.append_nil] at h4
    simp [instantiate, h4]
  | cdataset facets => cases C <;> simp [compat] at h1
  | scriptChild fa v => cases C <;> simp [compat] at h1
  | cpage w h ls o => cases C <;> simp [compat] at h1
  | cdatasetClass => cases C <;> simp [compat] at h1
  | pyNone => cases C <;> simp [compat] at h1
  | pyUnicode t => cases C <;> simp [compat] at h1

theorem claim1_witness :
    instantiate (Node.ctree "op" "s" [Node.cdummy] [])
        [Node.cdataset [("variable", "tas")]] =
      Except.ok (Node.ctree "op" "s" [Node.cdataset [("variable", "tas")]] []) :=
  claim1_amended (Node.ctree "op" "s" [Node.cdummy] [])
    (Node.ctree "op" "s" [Node.cdataset [("variable", "tas")]] [])
    [Node.cdataset [("variable", "tas")]] rfl rfl (by simp)

/-- Joint fuel induction: against an empty registry the rewriter always
takes the structural fallback, and with enough fuel it reproduces the
node's own rendering at every level. -/
theorem crewriteEmptyAux : ∀ f : Nat,
    (∀ E b, 3 * nsize E ≤ f → crewriteN [] f E b = Except.ok (buildcrs E)) ∧
    (∀ E, 3 * nsize E ≤ f + 1 → buildcrsWithF [] f E = Except.ok (buildcrs E)) ∧
    (∀ l, 3 * nsizeL l ≤ f → crewriteChildren [] f l = Except.ok (buildcrsList l)) ∧
    (∀ ls, 3 * nsizeLL ls ≤ f →
      crewriteLines [] f ls = Except.ok (buildcrsLines ls)) := by
  intro f
  induction f with
  | zero =>
    refine ⟨?_, ?_, ?_, ?_⟩
    · intro E b h
      have := nsize_pos E; omega
    · intro E h
      have := nsize_pos E; omega
    · intro l h
      cases l with
      | nil => rfl
      | cons o r => simp [nsizeL] at h
    · intro ls h
      cases ls with
      | nil => rfl
      | cons l r => simp [nsizeLL] at h
  | succ f ihf =>
    obtain ⟨ihN, ihB, ihC, ihLL⟩ := ihf
    refine ⟨?_, ?_, ?_, ?_⟩
    · intro E b h
      cases E with
      | ctree op s ops par =>
        have hB := ihB (Node.ctree op s ops par) h
        cases b <;> simp [crewriteN, isTreeNode, tryMacrosFn, hB]
      | scriptChild fa v =>
        have hB := ihB (Node.scriptChild fa v) h
        cases b <;> simp [crewriteN, isTreeNode, tryMacrosFn, hB]
      | cpage w hh ls o =>
        have hB := ihB (Node.cpage w hh ls o) h
        cases b <;> simp [crewriteN, isTreeNode, tryMacrosFn, hB]
      | cdataset facets => cases b <;> simp [crewriteN, isTreeNode]
      | cdummy => cases b <;> simp [crewriteN, isTreeNode]
      | cdatasetClass => cases b <;> simp [crewriteN, isTreeNode]
      | pyNone => cases b <;> simp [crewriteN, isTreeNode]
      | pyUnicode t => cases b <;> simp [crewriteN, isTreeNode]
    · intro E h
      cases E with
      | ctree op s ops par =>
        have hC := ihC ops (by simp [nsize] at h; omega)
        simp [buildcrsWithF, hC, buildcrs]
      | scriptChild fa v =>
        have hN := ihN fa true (by simp [nsize] at h; omega)
        simp [buildcrsWithF, hN, buildcrs]
      | cpage w hh ls o =>
        have hL := ihLL ls (by simp [nsize] at h; omega)
        simp [buildcrsWithF, hL, buildcrs]
      | cdataset facets => rfl
      | cdummy => rfl
      | cdatasetClass => rfl
      | pyNone => rfl
      | pyUnicode t => rfl
    · intro l h
      cases l with
      | nil => rfl
      | cons o r =>
        have hN := ihN o true (by simp [nsizeL] at h; omega)
        have hC := ihC r (by simp [nsizeL] at h; omega)
        simp [crewriteChildren, hN, hC, buildcrsList]
    · intro ls h
      cases ls with
      | nil => rfl
      | cons l r =>
        have hC := ihC l (by simp [nsizeLL] at h; omega)
        have hL := ihLL r (by simp [nsizeLL] at h; omega)
        simp [crewriteLines, hC, hL, buildcrsLines]

/-- Claim C9: rewriting any expression against an empty registry returns
exactly the expression's own textual rendering (given fuel at least
proportional to the expression's size, standing for the host's recursion
allowance). -/
theorem claim9_rewrite_empty_registry (E : Node) (b : Bool) (f : Nat)
    (hf : 3 * nsize E ≤ f) :
    crewriteN [] f E b = Except.ok (buildcrs E) :=
  (crewriteEmptyAux f).1 E b hf

theorem claim9_witness :
    crewriteN [] 30
        (Node.ctree "sub" "scr"
          [Node.cdataset [("variable", "rst")], Node.cdataset [("variable", "rstcs")]]
          []) true =
      Except.ok (buildcrs
        (Node.ctree "sub" "scr"
          [Node.cdataset [("variable", "rst")], Node.cdataset [("variable", "rstcs")]]
          [])) :=
  claim9_rewrite_empty_registry
    (Node.ctree "sub" "scr"
      [Node.cdataset [("variable", "rst")], Node.cdataset [("variable", "rstcs")]] [])
    true 30 (by decide)

end Cmacros
